import Mathlib

/-!
Verification of the Sandy Viper intraday options bot core.

Shallow embedding of the Python source:
* `lot_manager.py`  — `LotManager`: lot table, position sizing, P&L ledger.
* `strategy_expiry.py` — `choose_strike`, `run_once` decision cycle.
* `nse_data.py` — instrument strike step selection in `fetch_snapshot`.
* `watchdog.py` — `SystemWatchdog.check_api_connectivity` flush trigger.

Prices and P&L are modelled as `ℚ` (Python floats used as exact decimals in
the relevant code paths), quantities as `ℤ`, Python strings as `String`.
-/

namespace Viper

/-- Python `str.upper()` on the ASCII identifiers used by the bot:
uppercase every character. -/
def pyUpper (s : String) : String :=
  ⟨s.data.map Char.toUpper⟩

/-- Python `int(q)` on a float/rational: truncation toward zero. -/
def pyInt (q : ℚ) : ℤ :=
  if 0 ≤ q then ⌊q⌋ else ⌈q⌉

/-- Lexicographic strict order on character lists: Python `<` on strings. -/
def charsLt : List Char → List Char → Bool
  | [], [] => false
  | [], _ :: _ => true
  | _ :: _, [] => false
  | a :: as, b :: bs => if a < b then true else if a = b then charsLt as bs else false

/-- Python `s < t` on strings (lexicographic on code points). -/
def pyLt (s t : String) : Bool := charsLt s.data t.data

/-- Python `s <= t` on strings (lexicographic on code points). -/
def pyLe (s t : String) : Bool := pyLt s t || s == t

/-- Python 3 `round(q)`: round to nearest integer, ties to even. -/
def pyRound (q : ℚ) : ℤ :=
  let f := ⌊q⌋
  let r := q - (f : ℚ)
  if r < 1/2 then f
  else if 1/2 < r then f + 1
  else if 2 ∣ f then f else f + 1

/-! ## lot_manager.py — LotManager -/

/-- `LotManager.lot_sizes` (lot_manager.py lines 20-27). -/
def lot_sizes : List (String × ℤ) :=
  [("NIFTY", 50), ("BANKNIFTY", 15), ("FINNIFTY", 40),
   ("MIDCPNIFTY", 75), ("SENSEX", 10), ("BANKEX", 15)]

/-- `LotManager.get_lot_size` (lot_manager.py lines 29-33):
`base_symbol = symbol.split('_')[0] if '_' in symbol else symbol;
return self.lot_sizes.get(base_symbol.upper(), 1)`.
Python `split('_')[0]` is the prefix of the string before the first `'_'`. -/
def get_lot_size (symbol : String) : ℤ :=
  let base_symbol :=
    if symbol.data.contains '_' then
      (⟨symbol.data.takeWhile (fun c => c ≠ '_')⟩ : String)
    else symbol
  ((lot_sizes.lookup (pyUpper base_symbol)).getD 1)

/-- `config.trading` defaults (config.py lines 11-18, 59-62). -/
structure TradingConfig where
  max_position_size : ℚ
  risk_per_trade : ℚ
  max_daily_loss : ℚ

/-- The default `TradingConfig()` values (config.py lines 14-16). -/
def defaultTradingConfig : TradingConfig :=
  { max_position_size := 100000, risk_per_trade := 2/100, max_daily_loss := 5000 }

/-- `LotManager.calculate_position_size` (lot_manager.py lines 35-62).
`risk_amount` defaults to `max_position_size * risk_per_trade`; a zero
entry-to-stop distance returns 0; otherwise
`max_quantity = int(risk_amount / price_diff)`, `lots = max_quantity // lot_size`
(Python floor division), `quantity = lots * lot_size`. -/
def calculate_position_size (cfg : TradingConfig) (symbol : String)
    (entry_price stop_loss : ℚ) (risk_amount? : Option ℚ) : ℤ :=
  let risk_amount := risk_amount?.getD (cfg.max_position_size * cfg.risk_per_trade)
  let price_diff := |entry_price - stop_loss|
  if price_diff = 0 then 0
  else
    let lot_size := get_lot_size symbol
    let risk_per_share := price_diff
    let max_quantity := pyInt (risk_amount / risk_per_share)
    let lots := Int.fdiv max_quantity lot_size
    lots * lot_size

/-- An entry of `LotManager.open_positions` (lot_manager.py lines 112-120).
`entry_time` is dropped (wall-clock only, never read by P&L code). -/
structure Position where
  symbol : String
  quantity : ℤ
  entry_price : ℚ
  order_type : String
  strategy : String
  unrealized_pnl : ℚ

/-- The mutable P&L state of `LotManager`: `daily_pnl` and the
`open_positions` dict, modelled as an association list with unique keys. -/
structure LotState where
  daily_pnl : ℚ
  open_positions : List (String × Position)

/-- Deletion from the `open_positions` dict (`del self.open_positions[id]`):
the key is removed (dict keys are unique). -/
def eraseKey (l : List (String × Position)) (id : String) : List (String × Position) :=
  l.filter (fun p => ¬(p.1 = id))

/-- `LotManager.remove_position` (lot_manager.py lines 129-157).
Returns the new state and `Some pnl`, or the state unchanged and `None`
when `position_id not in self.open_positions`. -/
def remove_position (st : LotState) (position_id : String) (exit_price : ℚ) :
    LotState × Option ℚ :=
  match st.open_positions.lookup position_id with
  | none => (st, none)
  | some position =>
    let quantity := position.quantity
    let entry_price := position.entry_price
    let pnl :=
      if pyUpper position.order_type = "BUY" then
        (exit_price - entry_price) * (quantity : ℚ)
      else
        (entry_price - exit_price) * (quantity : ℚ)
    ({ daily_pnl := st.daily_pnl + pnl,
       open_positions := eraseKey st.open_positions position_id }, some pnl)

/-! ## strategy_expiry.py — choose_strike / run_once; nse_data.py — strike step -/

/-- `round50 = lambda x: int(round(x/50.0)*50)` (strategy_expiry.py line 28);
Python 3 `round` is nearest-ties-to-even. -/
def round50 (x : ℚ) : ℤ := pyRound (x / 50) * 50

/-- `ceil50 = lambda x: int(((x+49)//50)*50)` (strategy_expiry.py line 29);
`//` is floor division. -/
def ceil50 (x : ℚ) : ℤ := ⌊(x + 49) / 50⌋ * 50

/-- `floor50 = lambda x: int((x//50)*50)` (strategy_expiry.py line 30). -/
def floor50 (x : ℚ) : ℤ := ⌊x / 50⌋ * 50

/-- Modelled from the spec: `TIME_WINDOWS` is imported from `config` in
strategy_expiry.py but absent from the source config module. The spec
(§4.2) describes three non-overlapping windows (morning, midday,
afternoon); each window is a half-open `[start, end)` pair of "HH:MM"
strings as consumed by `choose_strike`. -/
structure TimeWindows where
  morning : String × String
  midday : String × String
  afternoon : String × String

/-- Python chained comparison `w[0] <= hhmm < w[1]` on "HH:MM" strings. -/
def inWindow (w : String × String) (hhmm : String) : Bool :=
  pyLe w.1 hhmm && pyLt hhmm w.2

/-- `choose_strike` (strategy_expiry.py lines 26-40), with the "HH:MM"
string `hhmm = now.strftime('%H:%M')` passed directly. All rounding is by
the fixed 50-point lambdas regardless of the instrument. -/
def choose_strike (tw : TimeWindows) (fut_ltp : ℚ) (direction : String)
    (hhmm : String) : ℤ :=
  if inWindow tw.morning hhmm then
    let base := if direction = "BULL" then ceil50 fut_ltp else floor50 fut_ltp
    base + (if direction = "BULL" then 100 else -100)
  else if inWindow tw.midday hhmm then round50 fut_ltp
  else if inWindow tw.afternoon hhmm then
    if direction = "BULL" then floor50 fut_ltp else ceil50 fut_ltp
  else -1

/-- The instrument-specific strike step of `fetch_snapshot`
(nse_data.py lines 356-361): 50 by default, 100 for BANKNIFTY,
25 for MIDCPNIFTY. -/
def strike_step (symbol : String) : ℤ :=
  if pyUpper symbol = "BANKNIFTY" then 100
  else if pyUpper symbol = "MIDCPNIFTY" then 25
  else 50

/-! ## RiskGovernor exposure state (spec §4.3)

`can_open` and `register_entry` are imported from `lot_manager` by
strategy_expiry.py (lines 10, 111, 118) but are absent from the source
`lot_manager.py`; they are modelled from the spec. -/

/-- Modelled from the spec: the caps `MAX_TRADES_PER_INSTRUMENT` and
`GLOBAL_EXPOSURE_CAP` named by §3/§4.3, absent from the source config. -/
structure RiskParams where
  maxTradesPerInstrument : ℕ
  globalExposureCap : ℚ

/-- Modelled from the spec: `ExposureState` (§3) —
`per_instrument_trade_count` and `global_exposure_value`. The trade counts
are kept as the list of accepted symbols; the count of an instrument is
its number of occurrences. -/
structure ExposureState where
  accepted : List (String × ℚ)
  global_exposure_value : ℚ

/-- A fresh `ExposureState`: no accepted trades, zero exposure. -/
def ExposureState.fresh : ExposureState := { accepted := [], global_exposure_value := 0 }

/-- `per_instrument_trade_count[symbol]` of an `ExposureState`. -/
def tradeCount (st : ExposureState) (symbol : String) : ℕ :=
  (st.accepted.filter (fun c => c.1 = symbol)).length

/-- Modelled from the spec: `can_open` — authorization succeeds only if
`per_instrument_trade_count[symbol] < MAX_TRADES_PER_INSTRUMENT` and
`global_exposure_value + incremental_exposure_value ≤ GLOBAL_EXPOSURE_CAP`
(§4.3). -/
def can_open (p : RiskParams) (st : ExposureState) (symbol : String)
    (incremental_exposure_value : ℚ) : Bool :=
  decide (tradeCount st symbol < p.maxTradesPerInstrument) &&
  decide (st.global_exposure_value + incremental_exposure_value ≤ p.globalExposureCap)

/-- Modelled from the spec: `register_entry` — on success the governor
atomically increments the per-instrument count and the global exposure
(§4.3). -/
def register_entry (st : ExposureState) (symbol : String)
    (incremental_exposure_value : ℚ) : ExposureState :=
  { accepted := (symbol, incremental_exposure_value) :: st.accepted,
    global_exposure_value := st.global_exposure_value + incremental_exposure_value }

/-- One `authorize` call: the `can_open` check followed, on success, by the
`register_entry` increment (the call pattern of strategy_expiry.py
lines 111, 118). Returns the new state and whether the call was accepted. -/
def authorize (p : RiskParams) (st : ExposureState) (symbol : String)
    (incremental_exposure_value : ℚ) : ExposureState × Bool :=
  if can_open p st symbol incremental_exposure_value then
    (register_entry st symbol incremental_exposure_value, true)
  else (st, false)

/-- Run a sequence of `authorize` calls, threading the state. -/
def runAuth (p : RiskParams) : List (String × ℚ) → ExposureState → ExposureState
  | [], st => st
  | c :: cs, st => runAuth p cs (authorize p st c.1 c.2).1

/-! ## ExecutionQueue (spec §4.4)

`place_market` and `flush_queue` are imported from `kite_api` by
strategy_expiry.py (line 5) and watchdog.py (line 164) but are absent from
the source `kite_api.py`; they are modelled from the spec. -/

/-- Modelled from the spec: `QueuedOrder` (§3) — symbol, quantity, side,
and the product/order-type policy pair. -/
structure QueuedOrder where
  symbol : String
  quantity : ℤ
  side : String
  product : String
  order_type : String
deriving DecidableEq

/-- Result of one `submit` (§4.4): `ok` with the broker's order id,
`queued`, or `rejected`. -/
inductive SubmitStatus where
  | ok (order_id : String)
  | queued
  | rejected
deriving DecidableEq

/-- The broker collaborator (§6): session validity probe and order
placement, which returns an order id or fails. -/
structure Broker where
  sessionValid : Bool
  placeOrder : QueuedOrder → Option String

/-- The queue state: the pending `QueuedOrder` list. -/
structure ExecState where
  pending : List QueuedOrder
deriving DecidableEq

/-- Modelled from the spec: `submit` (§4.4) — re-validates the session; on
invalid session enqueues a `QueuedOrder` and returns `queued`; on valid
session forwards to the broker, returning `ok order_id` or `rejected`. -/
def submit (b : Broker) (st : ExecState) (o : QueuedOrder) :
    ExecState × SubmitStatus :=
  if b.sessionValid = false then
    ({ pending := st.pending ++ [o] }, SubmitStatus.queued)
  else
    match b.placeOrder o with
    | some oid => (st, SubmitStatus.ok oid)
    | none => (st, SubmitStatus.rejected)

/-- Result of one `flush` (§4.4): counts of placed, failed and remaining
orders. -/
structure FlushResult where
  placed : ℕ
  failed : ℕ
  remaining : ℕ
deriving DecidableEq

/-- One flush attempt of a queued order: succeeds only with a valid
session and a successful broker placement. -/
def flushItem (b : Broker) (o : QueuedOrder) : Bool :=
  b.sessionValid && (b.placeOrder o).isSome

/-- Modelled from the spec: `flush` (§4.4) — drains the current queue
snapshot, re-validates the session per item, resubmits, and re-enqueues
every item that still fails. -/
def flush (b : Broker) (st : ExecState) : ExecState × FlushResult :=
  let snapshot := st.pending
  let retry := snapshot.filter (fun o => flushItem b o = false)
  ({ pending := retry },
   { placed := snapshot.length - retry.length,
     failed := retry.length,
     remaining := retry.length })

/-! ## watchdog.py — SystemWatchdog.check_api_connectivity (lines 140-202) -/

/-- The external observations of one `check_api_connectivity` tick:
the NSE market-status probe result (truthiness of
`nse_data.get_market_status()`), `zerodha_auth.is_authenticated()`, and
the Kite margins probe — `none` models the probe raising an exception,
`some ok` models `margins.get("status") == "success"` being `ok`. -/
structure ApiProbe where
  market_status : Bool
  authenticated : Bool
  margins_success : Option Bool

/-- `kite_status` of a tick (watchdog.py lines 150-171):
`NOT_AUTHENTICATED` when not authenticated; else `CONNECTED` when the
margins call reports success, `ERROR` on failure or exception. -/
def kiteStatus (p : ApiProbe) : String :=
  if p.authenticated = false then "NOT_AUTHENTICATED"
  else
    match p.margins_success with
    | some ok => if ok then "CONNECTED" else "ERROR"
    | none => "ERROR"

/-- Whether the tick reaches `flush_queue()` (watchdog.py lines 161-165):
the flush is attempted exactly when `kite_status == "CONNECTED"`. -/
def flushInvoked (p : ApiProbe) : Bool :=
  kiteStatus p = "CONNECTED"

/-- `self.api_status` after the tick (watchdog.py lines 192-195):
`CONNECTED` iff the NSE probe succeeded and `kite_status` is `CONNECTED`
or `NOT_AUTHENTICATED`, else `ERROR`. -/
def apiStatus (p : ApiProbe) : String :=
  if p.market_status = true ∧
      (kiteStatus p = "CONNECTED" ∨ kiteStatus p = "NOT_AUTHENTICATED") then
    "CONNECTED"
  else "ERROR"

/-! ## strategy_expiry.py — run_once (lines 77-124) -/

/-- Modelled from the spec where noted: the configuration constants
imported by strategy_expiry.py from `config` (`MARKET['force_exit']`,
`AWARENESS['lr_slope_min']`, `OPTION_CONFIRM_MIN`,
`OPTION_CONFIRM_MIN_HIGH_VIX`, `VIX_BANDS['high']`,
`ENTRY_POLICY['product']`, `ENTRY_POLICY['order_type']`, `TIME_WINDOWS`),
all absent from the source config module. -/
structure StratConfig where
  force_exit : String
  lr_slope_min : ℚ
  option_confirm_min : ℚ
  option_confirm_min_high_vix : ℚ
  vix_high : ℚ
  entry_product : String
  entry_order_type : String
  tw : TimeWindows

/-- The external inputs consumed by one `run_once` cycle: the clock
("HH:MM"), the snapshot's futures LTP, the 3-minute indicator features,
the OI/volume gate verdict, the VIX reading, the option-confirmation
score, and the lot count returned by `decide_lots`. -/
structure StratEnv where
  hhmm : String
  fut_ltp : ℚ
  price_above_200wma : Bool
  lr_slope_3m : ℚ
  oi_gate : Bool
  vix : ℚ
  opt_score : ℚ
  lots : ℤ

/-- The terminal outcome of one `run_once` cycle: a rejection at one of
the gates, in source order, or an entry. -/
inductive Outcome where
  | forceExit
  | slopeReject
  | oiReject
  | lateReject
  | optReject
  | capReject
  | policyReject
  | entered
deriving DecidableEq

/-- An order request passed to `place_market` (strategy_expiry.py
line 117): trading symbol, lots, transaction side. -/
structure OrderReq where
  tradingsymbol : String
  lots : ℤ
  txn : String
deriving DecidableEq

/-- `run_once` (strategy_expiry.py lines 77-124), as a function of the
config, the cycle's external inputs, the symbol, and the exposure state.
Returns the exposure state after the cycle, the list of orders placed,
and the outcome. Gate order is the source order: force-exit time, trend
slope, OI/volume, strike/14:00 cutoff, option-confirmation score,
exposure cap (`can_open`), entry policy, then `place_market` and
`register_entry`. `est_premium` is the literal 10.0 of line 109. -/
def run_once (p : RiskParams) (cfg : StratConfig) (env : StratEnv)
    (symbol : String) (st : ExposureState) :
    ExposureState × List OrderReq × Outcome :=
  if pyLe cfg.force_exit env.hhmm then (st, [], Outcome.forceExit)
  else
    let direction := if env.price_above_200wma then "BULL" else "BEAR"
    if env.lr_slope_3m < cfg.lr_slope_min then (st, [], Outcome.slopeReject)
    else if env.oi_gate = false then (st, [], Outcome.oiReject)
    else
      let strike := choose_strike cfg.tw env.fut_ltp direction env.hhmm
      if strike < 0 ∨ pyLe "14:00" env.hhmm then (st, [], Outcome.lateReject)
      else
        let thresh := if cfg.vix_high ≤ env.vix then cfg.option_confirm_min_high_vix
                      else cfg.option_confirm_min
        if env.opt_score < thresh then (st, [], Outcome.optReject)
        else
          let side := if direction = "BULL" then "CE" else "PE"
          let est_premium : ℚ := 10
          let exposure := est_premium * (env.lots : ℚ)
          if can_open p st symbol exposure = false then (st, [], Outcome.capReject)
          else if cfg.entry_product ≠ "MIS" ∨ cfg.entry_order_type ≠ "MARKET" then
            (st, [], Outcome.policyReject)
          else
            (register_entry st symbol exposure,
             [{ tradingsymbol := symbol ++ toString strike ++ side,
                lots := env.lots, txn := "BUY" }],
             Outcome.entered)

/-! ## Spec-side comparison definitions -/

/-- The realized P&L formula of `remove_position` (lot_manager.py
lines 140-144), factored out for theorem statements. -/
def pnlCalc (position : Position) (exit_price : ℚ) : ℚ :=
  if pyUpper position.order_type = "BUY" then
    (exit_price - position.entry_price) * (position.quantity : ℚ)
  else
    (position.entry_price - exit_price) * (position.quantity : ℚ)

/-- `get_lot_size` as the claim words it: uppercase the base name (the
substring before the first underscore, or the whole string if none),
return the fixed table value for the six known indices, and the default
lot size 1 for every other symbol. -/
def get_lot_size_spec (symbol : String) : ℤ :=
  let base : String := ⟨symbol.data.takeWhile (fun c => c ≠ '_')⟩
  let k := pyUpper base
  if k = "NIFTY" then 50
  else if k = "BANKNIFTY" then 15
  else if k = "FINNIFTY" then 40
  else if k = "MIDCPNIFTY" then 75
  else if k = "SENSEX" then 10
  else if k = "BANKEX" then 15
  else 1

/-! ## Helper lemmas -/

theorem charsLt_irrefl : ∀ l : List Char, charsLt l l = false
  | [] => rfl
  | a :: as => by simp [charsLt, charsLt_irrefl as]

theorem charsLt_trans : ∀ {a b c : List Char}, charsLt a b = true → charsLt b c = true →
    charsLt a c = true
  | [], [], _, hab, _ => by simp [charsLt] at hab
  | [], _ :: _, [], _, hbc => by simp [charsLt] at hbc
  | [], _ :: _, _ :: _, _, _ => rfl
  | _ :: _, [], _, hab, _ => by simp [charsLt] at hab
  | _ :: _, _ :: _, [], _, hbc => by simp [charsLt] at hbc
  | x :: xs, y :: ys, z :: zs, hab, hbc => by
    simp only [charsLt] at hab hbc ⊢
    by_cases hxy : x < y
    · by_cases hyz : y < z
      · simp [lt_trans hxy hyz]
      · by_cases hyz' : y = z
        · subst hyz'; simp [hxy]
        · simp [hyz, hyz'] at hbc
    · by_cases hxy' : x = y
      · subst hxy'
        by_cases hyz : x < z
        · simp [hyz]
        · by_cases hyz' : x = z
          · subst hyz'
            simp only [lt_irrefl, if_false, if_pos rfl] at hab hbc ⊢
            exact charsLt_trans hab hbc
          · simp [hyz, hyz'] at hbc
      · simp [hxy, hxy'] at hab

theorem pyLt_irrefl (s : String) : pyLt s s = false := charsLt_irrefl s.data

theorem pyLt_trans {a b c : String} (hab : pyLt a b = true) (hbc : pyLt b c = true) :
    pyLt a c = true := charsLt_trans hab hbc

theorem pyLe_pyLt_trans {a b c : String} (hab : pyLe a b = true) (hbc : pyLt b c = true) :
    pyLt a c = true := by
  rcases (by simpa [pyLe] using hab : pyLt a b = true ∨ a = b) with h | h
  · exact pyLt_trans h hbc
  · subst h; exact hbc

theorem pyLe_trans {a b c : String} (hab : pyLe a b = true) (hbc : pyLe b c = true) :
    pyLe a c = true := by
  rcases (by simpa [pyLe] using hbc : pyLt b c = true ∨ b = c) with h | h
  · simp [pyLe, pyLe_pyLt_trans hab h]
  · subst h; exact hab

theorem pyLt_eq_false_of_pyLe {a b : String} (h : pyLe b a = true) : pyLt a b = false := by
  by_contra hcon
  have hlt : pyLt a b = true := by
    cases hv : pyLt a b
    · exact absurd hv hcon
    · rfl
  have : pyLt b b = true := pyLe_pyLt_trans h hlt
  rw [pyLt_irrefl] at this
  exact Bool.false_ne_true this

theorem lookup_eraseKey (l : List (String × Position)) (id : String) :
    (eraseKey l id).lookup id = none := by
  induction l with
  | nil => rfl
  | cons p t ih =>
    by_cases h : p.1 = id
    · simpa [eraseKey, List.filter_cons, h] using ih
    · have hne : (id == p.1) = false := by
        simpa using fun hc => h hc.symm
      simpa [eraseKey, List.filter_cons, h, List.lookup, hne] using ih

/-! ## Claim theorems -/

/-- C10: `get_lot_size` is total and never raises: for every symbol string
it uppercases the base name (the substring before the first underscore, or
the whole string if none) and returns the fixed table value for the six
known indices (NIFTY 50, BANKNIFTY 15, FINNIFTY 40, MIDCPNIFTY 75,
SENSEX 10, BANKEX 15), and the default lot size 1 for every other symbol. -/
theorem get_lot_size_total_table :
    (∀ symbol, get_lot_size symbol = get_lot_size_spec symbol) ∧
    get_lot_size "NIFTY" = 50 ∧ get_lot_size "BANKNIFTY" = 15 ∧
    get_lot_size "FINNIFTY" = 40 ∧ get_lot_size "MIDCPNIFTY" = 75 ∧
    get_lot_size "SENSEX" = 10 ∧ get_lot_size "BANKEX" = 15 ∧
    get_lot_size "nifty_18500CE" = 50 ∧ get_lot_size "RELIANCE" = 1 := by
  refine ⟨?_, by decide, by decide, by decide, by decide, by decide, by decide,
    by decide, by decide⟩
  intro s
  have hbase :
      (if s.data.contains '_' then (⟨s.data.takeWhile (fun c => c ≠ '_')⟩ : String) else s)
        = (⟨s.data.takeWhile (fun c => c ≠ '_')⟩ : String) := by
    split
    · rfl
    · next h =>
      have hnm : '_' ∉ s.data := by
        intro hm
        exact h (by simp [List.contains, List.elem_eq_mem, hm])
      have htw : s.data.takeWhile (fun c => (c ≠ '_' : Bool)) = s.data :=
        List.takeWhile_eq_self_iff.mpr (by
          intro x hx
          simpa using fun hc : x = '_' => hnm (hc ▸ hx))
      cases s with
      | mk l => exact (congrArg String.mk htw).symm
  simp only [get_lot_size, get_lot_size_spec, hbase]
  generalize pyUpper (⟨s.data.takeWhile (fun c => c ≠ '_')⟩ : String) = k
  by_cases h1 : k = "NIFTY"
  · simp [lot_sizes, List.lookup, h1]
  · by_cases h2 : k = "BANKNIFTY"
    · simp [lot_sizes, List.lookup, h1, h2]
    · by_cases h3 : k = "FINNIFTY"
      · simp [lot_sizes, List.lookup, h1, h2, h3]
      · by_cases h4 : k = "MIDCPNIFTY"
        · simp [lot_sizes, List.lookup, h1, h2, h3, h4]
        · by_cases h5 : k = "SENSEX"
          · simp [lot_sizes, List.lookup, h1, h2, h3, h4, h5]
          · by_cases h6 : k = "BANKEX"
            · simp [lot_sizes, List.lookup, h1, h2, h3, h4, h5, h6]
            · simp [lot_sizes, List.lookup, h1, h2, h3, h4, h5, h6,
                beq_eq_false_iff_ne.mpr h1, beq_eq_false_iff_ne.mpr h2,
                beq_eq_false_iff_ne.mpr h3, beq_eq_false_iff_ne.mpr h4,
                beq_eq_false_iff_ne.mpr h5, beq_eq_false_iff_ne.mpr h6]

/-- C3: for every position closed through `remove_position`, a BUY-opened
position returns realized P&L `(exit − entry) × quantity` and a
SELL-opened one returns `(entry − exit) × quantity`. -/
theorem remove_position_pnl_sign (st : LotState) (position_id : String)
    (position : Position) (exit_price : ℚ)
    (hlook : st.open_positions.lookup position_id = some position) :
    (position.order_type = "BUY" →
      (remove_position st position_id exit_price).2 =
        some ((exit_price - position.entry_price) * (position.quantity : ℚ))) ∧
    (position.order_type = "SELL" →
      (remove_position st position_id exit_price).2 =
        some ((position.entry_price - exit_price) * (position.quantity : ℚ))) := by
  have hbuy : pyUpper "BUY" = "BUY" := by decide
  have hsell : pyUpper "SELL" = "SELL" := by decide
  have hneq : ("SELL" : String) ≠ "BUY" := by decide
  constructor <;> intro hot <;>
    simp [remove_position, hlook, hot, hbuy, hsell, hneq]

/-- C3 witness: a BUY position entered at 18500 with quantity 50 closed at
18600 yields 5000; the SELL-style counterpart yields −5000. -/
theorem remove_position_pnl_sign_witness :
    (remove_position
      ⟨0, [("p1", ⟨"NIFTY", 50, 18500, "BUY", "manual", 0⟩)]⟩ "p1" 18600).2
      = some 5000 ∧
    (remove_position
      ⟨0, [("p1", ⟨"NIFTY", 50, 18500, "SELL", "manual", 0⟩)]⟩ "p1" 18600).2
      = some (-5000) := by
  constructor
  · have h := (remove_position_pnl_sign
      ⟨0, [("p1", ⟨"NIFTY", 50, 18500, "BUY", "manual", 0⟩)]⟩ "p1"
      ⟨"NIFTY", 50, 18500, "BUY", "manual", 0⟩ 18600 rfl).1 rfl
    rw [h]; norm_num
  · have h := (remove_position_pnl_sign
      ⟨0, [("p1", ⟨"NIFTY", 50, 18500, "SELL", "manual", 0⟩)]⟩ "p1"
      ⟨"NIFTY", 50, 18500, "SELL", "manual", 0⟩ 18600 rfl).2 rfl
    rw [h]; norm_num

/-- C4: a first `remove_position` on a present id removes the position and
adds exactly the computed realized P&L to the daily cumulative P&L; a
second call with the same id returns `none` and leaves both the daily
P&L and the open-position set unchanged. -/
theorem remove_position_close_twice (st : LotState) (position_id : String)
    (position : Position) (exit1 exit2 : ℚ)
    (hlook : st.open_positions.lookup position_id = some position) :
    remove_position st position_id exit1 =
      ({ daily_pnl := st.daily_pnl + pnlCalc position exit1,
         open_positions := eraseKey st.open_positions position_id },
       some (pnlCalc position exit1)) ∧
    (remove_position st position_id exit1).1.open_positions.lookup position_id = none ∧
    remove_position (remove_position st position_id exit1).1 position_id exit2 =
      ((remove_position st position_id exit1).1, none) := by
  have h1 : remove_position st position_id exit1 =
      ({ daily_pnl := st.daily_pnl + pnlCalc position exit1,
         open_positions := eraseKey st.open_positions position_id },
       some (pnlCalc position exit1)) := by
    simp [remove_position, hlook, pnlCalc]
  refine ⟨h1, ?_, ?_⟩
  · rw [h1]; exact lookup_eraseKey _ _
  · rw [h1]; simp [remove_position, lookup_eraseKey]

/-- C4 witness: concrete double close. -/
theorem remove_position_close_twice_witness :
    ([("p1", (⟨"NIFTY", 50, 18500, "BUY", "manual", 0⟩ : Position))].lookup "p1"
      = some (⟨"NIFTY", 50, 18500, "BUY", "manual", 0⟩ : Position)) ∧
    (remove_position ⟨0, [("p1", ⟨"NIFTY", 50, 18500, "BUY", "manual", 0⟩)]⟩ "p1" 18600).1.open_positions.lookup "p1" = none ∧
    remove_position (remove_position ⟨0, [("p1", ⟨"NIFTY", 50, 18500, "BUY", "manual", 0⟩)]⟩ "p1" 18600).1 "p1" 18550 =
      ((remove_position ⟨0, [("p1", ⟨"NIFTY", 50, 18500, "BUY", "manual", 0⟩)]⟩ "p1" 18600).1, none) := by
  refine ⟨rfl, ?_, ?_⟩
  · exact (remove_position_close_twice
      ⟨0, [("p1", ⟨"NIFTY", 50, 18500, "BUY", "manual", 0⟩)]⟩ "p1"
      ⟨"NIFTY", 50, 18500, "BUY", "manual", 0⟩ 18600 18550 rfl).2.1
  · exact (remove_position_close_twice
      ⟨0, [("p1", ⟨"NIFTY", 50, 18500, "BUY", "manual", 0⟩)]⟩ "p1"
      ⟨"NIFTY", 50, 18500, "BUY", "manual", 0⟩ 18600 18550 rfl).2.2

/-- C9: position sizing with entry price equal to stop-loss returns
quantity 0 with no division fault; with a non-zero risk distance the
returned quantity is the whole multiple of the instrument's lot size
obtained by flooring the risk budget divided by the per-unit price risk. -/
theorem calculate_position_size_safe (cfg : TradingConfig) (symbol : String)
    (entry_price stop_loss : ℚ) (risk_amount? : Option ℚ)
    (hrisk : 0 ≤ risk_amount?.getD (cfg.max_position_size * cfg.risk_per_trade)) :
    (entry_price = stop_loss →
      calculate_position_size cfg symbol entry_price stop_loss risk_amount? = 0) ∧
    (entry_price ≠ stop_loss →
      get_lot_size symbol ∣
        calculate_position_size cfg symbol entry_price stop_loss risk_amount? ∧
      calculate_position_size cfg symbol entry_price stop_loss risk_amount? =
        Int.fdiv
          ⌊risk_amount?.getD (cfg.max_position_size * cfg.risk_per_trade)
              / |entry_price - stop_loss|⌋
          (get_lot_size symbol) * get_lot_size symbol) := by
  constructor
  · intro he
    simp [calculate_position_size, he]
  · intro hne
    have hd : ¬(|entry_price - stop_loss| = 0) := by
      simpa [sub_eq_zero] using hne
    have hq : 0 ≤ risk_amount?.getD (cfg.max_position_size * cfg.risk_per_trade)
        / |entry_price - stop_loss| :=
      div_nonneg hrisk (abs_nonneg _)
    constructor
    · simp only [calculate_position_size, if_neg hd]
      exact dvd_mul_left _ _
    · simp only [calculate_position_size, if_neg hd, pyInt, if_pos hq]

/-- C9 witness: NIFTY, risk 2000, entry 100 against stops 100 and 99. -/
theorem calculate_position_size_safe_witness :
    ((0:ℚ) ≤ (some (2000:ℚ)).getD
      (defaultTradingConfig.max_position_size * defaultTradingConfig.risk_per_trade)) ∧
    ((100:ℚ) = 100 →
      calculate_position_size defaultTradingConfig "NIFTY" 100 100 (some 2000) = 0) ∧
    ((100:ℚ) ≠ 99 →
      get_lot_size "NIFTY" ∣
        calculate_position_size defaultTradingConfig "NIFTY" 100 99 (some 2000) ∧
      calculate_position_size defaultTradingConfig "NIFTY" 100 99 (some 2000) =
        Int.fdiv
          ⌊(some (2000:ℚ)).getD
              (defaultTradingConfig.max_position_size * defaultTradingConfig.risk_per_trade)
              / |(100:ℚ) - 99|⌋
          (get_lot_size "NIFTY") * get_lot_size "NIFTY") :=
  ⟨by norm_num,
   (calculate_position_size_safe defaultTradingConfig "NIFTY" 100 100 (some 2000)
      (by norm_num)).1,
   (calculate_position_size_safe defaultTradingConfig "NIFTY" 100 99 (some 2000)
      (by norm_num)).2⟩

theorem tradeCount_register (st : ExposureState) (symbol s : String) (incr : ℚ) :
    tradeCount (register_entry st symbol incr) s =
      tradeCount st s + (if symbol = s then 1 else 0) := by
  simp only [tradeCount, register_entry, List.filter_cons]
  split
  · next h =>
    simp only [List.length_cons]
    simp [decide_eq_true_eq] at h
    simp [h]
  · next h =>
    simp [decide_eq_true_eq] at h
    simp [h]

theorem runAuth_inv (p : RiskParams) (calls : List (String × ℚ)) :
    ∀ st : ExposureState,
      st.global_exposure_value ≤ p.globalExposureCap →
      st.global_exposure_value = (st.accepted.map Prod.snd).sum →
      (∀ s, tradeCount st s ≤ p.maxTradesPerInstrument) →
      (runAuth p calls st).global_exposure_value ≤ p.globalExposureCap ∧
      (runAuth p calls st).global_exposure_value =
        ((runAuth p calls st).accepted.map Prod.snd).sum ∧
      ∀ s, tradeCount (runAuth p calls st) s ≤ p.maxTradesPerInstrument := by
  induction calls with
  | nil => intro st hg hsum hc; exact ⟨hg, hsum, hc⟩
  | cons c cs ih =>
    intro st hg hsum hc
    by_cases hco : can_open p st c.1 c.2 = true
    · have hsp : tradeCount st c.1 < p.maxTradesPerInstrument ∧
          st.global_exposure_value + c.2 ≤ p.globalExposureCap := by
        simpa [can_open] using hco
      have hrw : runAuth p (c :: cs) st = runAuth p cs (register_entry st c.1 c.2) := by
        simp [runAuth, authorize, hco]
      rw [hrw]
      apply ih
      · simpa [register_entry] using hsp.2
      · simp [register_entry, hsum, add_comm]
      · intro s
        rw [tradeCount_register]
        split
        · next hEq =>
          have := hsp.1
          rw [hEq] at this
          omega
        · simpa using hc s
    · have hrw : runAuth p (c :: cs) st = runAuth p cs st := by
        simp [runAuth, authorize, hco]
      rw [hrw]
      exact ih st hg hsum hc

/-- C1: from a fresh `ExposureState`, over every sequence of authorize
(`can_open`/`register_entry`) calls, the running sum of the accepted
incremental exposure values never exceeds `GLOBAL_EXPOSURE_CAP` and no
instrument's accepted call count exceeds `MAX_TRADES_PER_INSTRUMENT`; a
call is accepted only if both caps still hold after its increment. -/
theorem authorize_caps (p : RiskParams) (hcap : 0 ≤ p.globalExposureCap)
    (calls : List (String × ℚ)) :
    ((runAuth p calls ExposureState.fresh).accepted.map Prod.snd).sum ≤
      p.globalExposureCap ∧
    (∀ s, tradeCount (runAuth p calls ExposureState.fresh) s ≤
      p.maxTradesPerInstrument) ∧
    ∀ (st : ExposureState) (symbol : String) (incr : ℚ),
      (authorize p st symbol incr).2 = true →
        tradeCount st symbol < p.maxTradesPerInstrument ∧
        st.global_exposure_value + incr ≤ p.globalExposureCap := by
  obtain ⟨hg, hsum, hcnt⟩ := runAuth_inv p calls ExposureState.fresh
    (by simpa [ExposureState.fresh] using hcap)
    (by simp [ExposureState.fresh])
    (by intro s; simp [tradeCount, ExposureState.fresh])
  refine ⟨hsum ▸ hg, hcnt, ?_⟩
  intro st symbol incr hacc
  by_cases hco : can_open p st symbol incr = true
  · simpa [can_open] using hco
  · simp [authorize, hco] at hacc

/-- C1 witness: caps 2 trades / 100 exposure over a concrete call list. -/
theorem authorize_caps_witness :
    (0:ℚ) ≤ (100:ℚ) ∧
    (((((runAuth ⟨2, 100⟩ [("NIFTY", 60), ("NIFTY", 60)]
        ExposureState.fresh).accepted.map Prod.snd).sum ≤ (100:ℚ)) ∧
      (∀ s, tradeCount (runAuth ⟨2, 100⟩ [("NIFTY", 60), ("NIFTY", 60)]
        ExposureState.fresh) s ≤ 2) ∧
      ∀ (st : ExposureState) (symbol : String) (incr : ℚ),
        (authorize ⟨2, 100⟩ st symbol incr).2 = true →
          tradeCount st symbol < 2 ∧ st.global_exposure_value + incr ≤ 100)) :=
  ⟨by norm_num,
   authorize_caps ⟨2, 100⟩ (by norm_num) [("NIFTY", 60), ("NIFTY", 60)]⟩

/-- C6: with a 50-point step, underlying 18487 and direction BULL,
`choose_strike` returns a strike strictly above the nearest 50-point
ceiling (18500) at every time inside the morning window, and a strike at
or below the nearest 50-point floor (18450) at every time inside the
afternoon window (windows ordered morning < midday < afternoon). -/
theorem choose_strike_morning_afternoon (tw : TimeWindows)
    (hma : pyLe tw.morning.2 tw.afternoon.1 = true)
    (hda : pyLe tw.midday.2 tw.afternoon.1 = true) :
    (∀ t, inWindow tw.morning t = true →
      ceil50 18487 = 18500 ∧ 18500 < choose_strike tw 18487 "BULL" t) ∧
    (∀ t, inWindow tw.afternoon t = true →
      floor50 18487 = 18450 ∧ choose_strike tw 18487 "BULL" t ≤ 18450) := by
  have hceil : ceil50 (18487:ℚ) = 18500 := by norm_num [ceil50]
  have hfloor : floor50 (18487:ℚ) = 18450 := by norm_num [floor50]
  constructor
  · intro t ht
    refine ⟨hceil, ?_⟩
    simp only [choose_strike, ht, if_true, if_pos rfl, hceil]
    norm_num
  · intro t ht
    have ht1 : pyLe tw.afternoon.1 t = true := by
      have := ht
      simp only [inWindow, Bool.and_eq_true] at this
      exact this.1
    have hmF : pyLt t tw.morning.2 = false :=
      pyLt_eq_false_of_pyLe (pyLe_trans hma ht1)
    have hdF : pyLt t tw.midday.2 = false :=
      pyLt_eq_false_of_pyLe (pyLe_trans hda ht1)
    have hmW : inWindow tw.morning t = false := by
      simp [inWindow, hmF]
    have hdW : inWindow tw.midday t = false := by
      simp [inWindow, hdF]
    refine ⟨hfloor, ?_⟩
    simp only [choose_strike, hmW, hdW, ht, Bool.false_eq_true, if_false, if_true,
      if_pos rfl, hfloor]
    norm_num

/-- C6 witness: concrete non-overlapping windows and times. -/
theorem choose_strike_morning_afternoon_witness :
    pyLe "11:00" "13:30" = true ∧ pyLe "13:30" "13:30" = true ∧
    inWindow (("09:20", "11:00")) "09:30" = true ∧
    inWindow (("13:30", "15:00")) "14:05" = true ∧
    (ceil50 18487 = 18500 ∧
      18500 < choose_strike ⟨("09:20", "11:00"), ("11:00", "13:30"), ("13:30", "15:00")⟩
        18487 "BULL" "09:30") ∧
    (floor50 18487 = 18450 ∧
      choose_strike ⟨("09:20", "11:00"), ("11:00", "13:30"), ("13:30", "15:00")⟩
        18487 "BULL" "14:05" ≤ 18450) :=
  ⟨by decide, by decide, by decide, by decide,
   (choose_strike_morning_afternoon
     ⟨("09:20", "11:00"), ("11:00", "13:30"), ("13:30", "15:00")⟩
     (by decide) (by decide)).1 "09:30" (by decide),
   (choose_strike_morning_afternoon
     ⟨("09:20", "11:00"), ("11:00", "13:30"), ("13:30", "15:00")⟩
     (by decide) (by decide)).2 "14:05" (by decide)⟩

/-- C7 (code bug): `choose_strike` rounds with a fixed 50-point step for
every symbol — it takes no instrument step at all — although
`fetch_snapshot` gives BANKNIFTY step 100 (and MIDCPNIFTY 25): at
underlying 44120 in the morning window the returned BULL strike 44250 is
not a multiple of BANKNIFTY's 100-point step. -/
theorem choose_strike_ignores_instrument_step (tw : TimeWindows) (t : String)
    (h : inWindow tw.morning t = true) :
    strike_step "BANKNIFTY" = 100 ∧
    choose_strike tw 44120 "BULL" t = 44250 ∧
    ¬ (strike_step "BANKNIFTY" ∣ choose_strike tw 44120 "BULL" t) := by
  have hs : strike_step "BANKNIFTY" = 100 := by decide
  have hc : choose_strike tw 44120 "BULL" t = 44250 := by
    simp only [choose_strike, h, if_true, if_pos rfl]
    norm_num [ceil50]
  refine ⟨hs, hc, ?_⟩
  rw [hs, hc]
  rintro ⟨k, hk⟩
  omega

/-- C7 witness: concrete morning window and time. -/
theorem choose_strike_ignores_instrument_step_witness :
    inWindow (("09:20", "11:00")) "09:30" = true ∧
    (strike_step "BANKNIFTY" = 100 ∧
     choose_strike ⟨("09:20", "11:00"), ("11:00", "13:30"), ("13:30", "15:00")⟩
       44120 "BULL" "09:30" = 44250 ∧
     ¬ (strike_step "BANKNIFTY" ∣
        choose_strike ⟨("09:20", "11:00"), ("11:00", "13:30"), ("13:30", "15:00")⟩
          44120 "BULL" "09:30")) :=
  ⟨by decide,
   choose_strike_ignores_instrument_step
     ⟨("09:20", "11:00"), ("11:00", "13:30"), ("13:30", "15:00")⟩ "09:30" (by decide)⟩

/-- C8: `run_once` invoked at or after the configured force-exit time
rejects at the time-of-day gate before any other gate: no order is placed
and the exposure state is unmutated, regardless of every other input. -/
theorem run_once_force_exit (p : RiskParams) (cfg : StratConfig) (env : StratEnv)
    (symbol : String) (st : ExposureState)
    (h : pyLe cfg.force_exit env.hhmm = true) :
    run_once p cfg env symbol st = (st, [], Outcome.forceExit) := by
  simp [run_once, h]

/-- C8 witness: a 15:15 tick against a 15:10 force-exit time, with every
other gate input set to pass. -/
theorem run_once_force_exit_witness :
    pyLe "15:10" "15:15" = true ∧
    run_once ⟨2, 100⟩
      ⟨"15:10", 0, 7/10, 6/10, 20, "MIS", "MARKET",
        ⟨("09:20", "11:00"), ("11:00", "13:30"), ("13:30", "15:00")⟩⟩
      ⟨"15:15", 18487, true, 1, true, 15, 8/10, 1⟩ "NIFTY" ExposureState.fresh =
      (ExposureState.fresh, [], Outcome.forceExit) :=
  ⟨by decide,
   run_once_force_exit ⟨2, 100⟩
     ⟨"15:10", 0, 7/10, 6/10, 20, "MIS", "MARKET",
       ⟨("09:20", "11:00"), ("11:00", "13:30"), ("13:30", "15:00")⟩⟩
     ⟨"15:15", 18487, true, 1, true, 15, 8/10, 1⟩ "NIFTY" ExposureState.fresh
     (by decide)⟩

/-- C5: on every `check_api_connectivity` tick whose api axis comes out
CONNECTED with prior authentication — in particular on every tick that is
a transition into CONNECTED from any other previous status — the flush of
the execution queue is invoked. -/
theorem flush_on_api_reconnect (prev : String) (p : ApiProbe)
    (_hprev : prev ≠ "CONNECTED") (hnow : apiStatus p = "CONNECTED")
    (hauth : p.authenticated = true) : flushInvoked p = true := by
  have e1 : ("ERROR" : String) ≠ "CONNECTED" := by decide
  have e2 : ("ERROR" : String) ≠ "NOT_AUTHENTICATED" := by decide
  rcases hm : p.margins_success with _ | ok
  · have hk : kiteStatus p = "ERROR" := by simp [kiteStatus, hauth, hm]
    simp [apiStatus, hk, e1, e2] at hnow
  · cases ok with
    | false =>
      have hk : kiteStatus p = "ERROR" := by simp [kiteStatus, hauth, hm]
      simp [apiStatus, hk, e1, e2] at hnow
    | true =>
      simp [flushInvoked, kiteStatus, hauth, hm]

/-- C5 witness: a tick observing CONNECTED after a previous ERROR status. -/
theorem flush_on_api_reconnect_witness :
    ("ERROR" : String) ≠ "CONNECTED" ∧
    apiStatus ⟨true, true, some true⟩ = "CONNECTED" ∧
    (⟨true, true, some true⟩ : ApiProbe).authenticated = true ∧
    flushInvoked ⟨true, true, some true⟩ = true :=
  ⟨by decide, by decide, rfl,
   flush_on_api_reconnect "ERROR" ⟨true, true, some true⟩ (by decide) (by decide) rfl⟩

/-- C2: `submit` under a session reported invalid enqueues exactly one
`QueuedOrder` and returns `queued`; a later `flush` with the session valid
and the broker accepting resubmits that order, reports it placed, and
leaves the queue empty. -/
theorem submit_queued_then_flush (b1 b2 : Broker) (st : ExecState)
    (o : QueuedOrder) (oid : String)
    (h1 : b1.sessionValid = false) (h2 : b2.sessionValid = true)
    (h3 : b2.placeOrder o = some oid) :
    submit b1 st o = ({ pending := st.pending ++ [o] }, SubmitStatus.queued) ∧
    flush b2 (submit b1 { pending := [] } o).1 =
      ({ pending := [] }, { placed := 1, failed := 0, remaining := 0 }) := by
  constructor
  · simp [submit, h1]
  · have hs : (submit b1 { pending := [] } o).1 = ({ pending := [o] } : ExecState) := by
      simp [submit, h1]
    rw [hs]
    simp [flush, flushItem, h2, h3]

/-- C2 witness: concrete invalid-then-valid brokers and one order. -/
theorem submit_queued_then_flush_witness :
    (Broker.mk false (fun _ => none)).sessionValid = false ∧
    (Broker.mk true (fun _ => some "OID1")).sessionValid = true ∧
    (Broker.mk true (fun _ => some "OID1")).placeOrder
      ⟨"NIFTY18500CE", 1, "BUY", "MIS", "MARKET"⟩ = some "OID1" ∧
    (submit (Broker.mk false (fun _ => none)) { pending := [] }
        ⟨"NIFTY18500CE", 1, "BUY", "MIS", "MARKET"⟩ =
      ({ pending := [⟨"NIFTY18500CE", 1, "BUY", "MIS", "MARKET"⟩] },
        SubmitStatus.queued) ∧
     flush (Broker.mk true (fun _ => some "OID1"))
        (submit (Broker.mk false (fun _ => none)) { pending := [] }
          ⟨"NIFTY18500CE", 1, "BUY", "MIS", "MARKET"⟩).1 =
      ({ pending := [] }, { placed := 1, failed := 0, remaining := 0 })) :=
  ⟨rfl, rfl, rfl,
   submit_queued_then_flush (Broker.mk false (fun _ => none))
     (Broker.mk true (fun _ => some "OID1")) { pending := [] }
     ⟨"NIFTY18500CE", 1, "BUY", "MIS", "MARKET"⟩ "OID1" rfl rfl rfl⟩

end Viper

